import Mathlib

/-!
Verification development for the BLE battery-monitoring subsystem of
zmk-battery-center (src/src-tauri/src/ble.rs), as a shallow embedding.

Adapter I/O is modelled by embedding each fallible adapter response as a
field of the corresponding data object (a `GattCharacteristic` carries the
result its `read()`, `descriptors()` and `properties()` calls would return,
and so on); the pure control flow of the Rust functions is then translated
directly.  Byte payloads are `List Nat` (each entry one byte).
-/

namespace ZmkBle

/-- The Battery Service UUID expanded with the Bluetooth base UUID,
ble.rs line 13. -/
def BATTERY_SERVICE_UUID : Nat := 0x0000180F00001000800000805F9B34FB

/-- The Battery Level characteristic UUID expanded with the Bluetooth
base UUID, ble.rs line 14. -/
def BATTERY_LEVEL_UUID : Nat := 0x00002A1900001000800000805F9B34FB

/-- Characteristic User Description descriptor UUID
(bluest's CHARACTERISTIC_USER_DESCRIPTION, ble.rs line 1). -/
def CHARACTERISTIC_USER_DESCRIPTION : Nat := 0x0000290100001000800000805F9B34FB

/-- ble.rs lines 18-22: a device entry returned by list_battery_devices. -/
structure BleDeviceInfo where
  name : String
  id : String
deriving DecidableEq, Repr

/-- ble.rs lines 24-28: one battery reading. `battery_level` is `Option<u8>`
(a byte, absent when unread/unparseable); `user_descriptor` the optional
label. -/
structure BatteryInfo where
  battery_level : Option Nat
  user_descriptor : Option String
deriving DecidableEq, Repr

/-- ble.rs lines 30-34: payload of the battery-info-notification event. -/
structure BatteryInfoNotificationEvent where
  id : String
  battery_info : BatteryInfo
deriving DecidableEq, Repr

/-- ble.rs lines 36-40: payload of the battery-monitor-status event. -/
structure BatteryMonitorStatusEvent where
  id : String
  connected : Bool
deriving DecidableEq, Repr

/-- The notify/indicate flags of bluest's CharacteristicProperties used at
ble.rs lines 637-638 and 816-818. -/
structure CharacteristicProperties where
  notify : Bool
  indicate : Bool
deriving DecidableEq, Repr

/-- A GATT descriptor together with the response its `read()` call
(ble.rs lines 151-154) would produce. -/
structure GattDescriptor where
  uuid : Nat
  readResult : Except String (List Nat)

/-- A GATT characteristic together with the responses its `read()`
(ble.rs line 183), `descriptors()` (lines 142-145) and `properties()`
(lines 637, 813-817) calls would produce. -/
structure GattCharacteristic where
  uuid : Nat
  readResult : Except String (List Nat)
  descriptorsResult : Except String (List GattDescriptor)
  propertiesResult : Except String CharacteristicProperties

/-- A GATT service together with the response of its `characteristics()`
call (ble.rs lines 128-131). -/
structure GattService where
  uuid : Nat
  characteristicsResult : Except String (List GattCharacteristic)

/-- A device together with the response of its `services()` call
(ble.rs line 122). -/
structure GattDevice where
  servicesResult : Except String (List GattService)

/-- ble.rs lines 42-46: a resolved battery characteristic plus its optional
user-description label. -/
structure BatteryCharacteristicContext where
  characteristic : GattCharacteristic
  user_descriptor : Option String

/-- Model of Rust's `String::from_utf8` on a byte vector: UTF-8 validation
and decoding (ble.rs line 160). -/
def utf8Decode (bytes : List Nat) : Option String :=
  String.fromUTF8? (ByteArray.mk (Array.mk (bytes.map (fun b => UInt8.ofNat b))))

/-- ble.rs lines 141-168, body of the inner loop of
get_battery_characteristic_contexts for one battery-level characteristic:
fetch its descriptors (propagating an enumeration error), look for the
user-description descriptor, and if present read it (the `?` on line 154
propagates a read failure) and keep the label only when the payload decodes
as UTF-8. -/
def resolveCharacteristic (c : GattCharacteristic) :
    Except String BatteryCharacteristicContext := do
  let descriptors ← c.descriptorsResult
  match descriptors.find? (fun d => d.uuid == CHARACTERISTIC_USER_DESCRIPTION) with
  | some dsc => do
      let descValue ← dsc.readResult
      pure { characteristic := c, user_descriptor := utf8Decode descValue }
  | none => pure { characteristic := c, user_descriptor := none }

/-- ble.rs lines 128-169, middle loop of get_battery_characteristic_contexts:
enumerate one battery service's characteristics and resolve every
battery-level characteristic in order. -/
def resolveService (s : GattService) :
    Except String (List BatteryCharacteristicContext) := do
  let characteristics ← s.characteristicsResult
  (characteristics.filter (fun c => c.uuid == BATTERY_LEVEL_UUID)).mapM
    resolveCharacteristic

/-- ble.rs lines 114-173: get_battery_characteristic_contexts. Walks
services filtered to the battery service UUID, resolving every battery-level
characteristic; collects the contexts in enumeration order. -/
def get_battery_characteristic_contexts (dev : GattDevice) :
    Except String (List BatteryCharacteristicContext) := do
  let services ← dev.servicesResult
  let contextss ←
    (services.filter (fun s => s.uuid == BATTERY_SERVICE_UUID)).mapM resolveService
  pure contextss.flatten

/-- ble.rs lines 175-201: read_battery_infos_strict. Reads each context's
characteristic in list order; the first read failure aborts the loop with
that error (`?` on line 187). Besides the Rust function's result, the model
also returns the list of characteristics on which a read was attempted, so
that "never attempts a later characteristic" is expressible. -/
def read_battery_infos_strict :
    List BatteryCharacteristicContext →
      List GattCharacteristic × Except String (List BatteryInfo)
  | [] => ([], Except.ok [])
  | context :: rest =>
    match context.characteristic.readResult with
    | Except.error e => ([context.characteristic], Except.error e)
    | Except.ok value =>
      let (attempts, tailResult) := read_battery_infos_strict rest
      (context.characteristic :: attempts,
        tailResult.map (fun infos =>
          { battery_level := value.head?,
            user_descriptor := context.user_descriptor } :: infos))

/-- ble.rs lines 203-239: read_battery_infos_best_effort. Reads each
context's characteristic independently; a failed read yields an absent
battery_level for that entry only (`read_result.as_ref().ok().and_then(...)`
on line 213), and the loop continues. Total: never returns an error. -/
def read_battery_infos_best_effort
    (contexts : List BatteryCharacteristicContext) : List BatteryInfo :=
  contexts.map (fun context =>
    { battery_level :=
        context.characteristic.readResult.toOption.bind (fun value => value.head?),
      user_descriptor := context.user_descriptor })

/-- ble.rs lines 402-408, inside battery_notification_worker: the event
payload built from one notification value `data` — the level is the first
byte (`data.first().copied()`), the label the worker's fixed descriptor. -/
def notification_event_payload (device_id : String)
    (context : BatteryCharacteristicContext) (data : List Nat) :
    BatteryInfoNotificationEvent :=
  { id := device_id,
    battery_info :=
      { battery_level := data.head?,
        user_descriptor := context.user_descriptor } }

/-- ble.rs lines 48-52: the aggregator's shared state — the set of worker
ids currently up, plus the last-published aggregate boolean. The Rust
Default gives the empty set and false. -/
structure MonitorConnectionState where
  connected_workers : Finset Nat
  is_connected : Bool
deriving DecidableEq

/-- The initial aggregator state, MonitorConnectionState::default() at
ble.rs lines 669 and 836-837: empty set, not connected. -/
def initialMonitorConnectionState : MonitorConnectionState :=
  { connected_workers := ∅, is_connected := false }

/-- ble.rs lines 248-279: update_monitor_connection_state. Under the lock:
insert or remove the worker id, compute `next = !connected_set.is_empty()`,
and when it differs from the stored value update the stored value and
record the change; after releasing the lock emit one status event exactly
when a change was recorded. The model returns the new state and the
(at most one) emitted event. -/
def update_monitor_connection_state (device_id : String) (worker_id : Nat)
    (connected : Bool) (state : MonitorConnectionState) :
    MonitorConnectionState × Option BatteryMonitorStatusEvent :=
  let workers :=
    if connected then insert worker_id state.connected_workers
    else state.connected_workers.erase worker_id
  let next_connected : Bool := decide (workers ≠ ∅)
  if next_connected ≠ state.is_connected then
    ({ connected_workers := workers, is_connected := next_connected },
      some { id := device_id, connected := next_connected })
  else
    ({ connected_workers := workers, is_connected := state.is_connected }, none)

/-- Run a sequence of aggregator updates (worker id, connected flag) from a
given state, collecting every emitted status event in order. -/
def run_updates (device_id : String) (state : MonitorConnectionState) :
    List (Nat × Bool) → MonitorConnectionState × List BatteryMonitorStatusEvent
  | [] => (state, [])
  | u :: us =>
    let (state1, ev) := update_monitor_connection_state device_id u.1 u.2 state
    let (state2, evs) := run_updates device_id state1 us
    (state2, ev.toList ++ evs)

/-- The connected-worker set after one aggregator update. -/
def nextWorkers (workers : Finset Nat) (u : Nat × Bool) : Finset Nat :=
  if u.2 then insert u.1 workers else workers.erase u.1

/-- The number of emptiness transitions of the connected-worker set along a
sequence of aggregator updates. -/
def emptinessTransitions (workers : Finset Nat) :
    List (Nat × Bool) → Nat
  | [] => 0
  | u :: us =>
    let next := nextWorkers workers u
    (if decide (next ≠ ∅) = decide (workers ≠ ∅) then 0 else 1) +
      emptinessTransitions next us

/-- A spawned task's join handle: its id, and (the scheduler oracle) whether
awaiting it completes within the 10-second grace timeout of
stop_battery_notification_monitor_internal (ble.rs line 723). -/
structure JoinHandleModel where
  taskId : Nat
  finishesInTime : Bool
deriving DecidableEq, Repr

/-- ble.rs lines 54-57: a registry entry — the stop-signal sender (modelled
by a channel id) and the owned join handles. -/
structure MonitorTask where
  stopChannel : Nat
  join_handles : List JoinHandleModel
deriving DecidableEq, Repr

/-- The task ids owned by a MonitorTask. -/
def MonitorTask.taskIds (t : MonitorTask) : List Nat :=
  t.join_handles.map (fun h => h.taskId)

/-- Observable registry actions, in the order they are performed. -/
inductive RegistryEvent
  | stopSignalSent (chan : Nat)
  | handleJoined (taskId : Nat)
  | handleAborted (taskId : Nat)
  | taskInstalled (id : String) (chan : Nat)
deriving DecidableEq, Repr

/-- The process state the registry acts on: the MONITORS map (ble.rs lines
59-60, a HashMap from device id to MonitorTask, modelled as an association
list) and the set of currently running spawned tasks. -/
structure RegState where
  monitors : List (String × MonitorTask)
  live : List Nat
deriving DecidableEq, Repr

/-- ble.rs lines 713-729: stop_battery_notification_monitor_internal.
Removes the id's entry under the lock; if one was present, sends the stop
signal (ignoring a send error) and awaits each owned handle bounded by the
10-second timeout, aborting a handle that does not finish in time. A joined
or aborted task is no longer running. Never fails. -/
def stop_battery_notification_monitor_internal (id : String) (st : RegState) :
    RegState × List RegistryEvent :=
  match st.monitors.lookup id with
  | none => (st, [])
  | some task =>
    ({ monitors := st.monitors.filter (fun p => p.1 != id),
       live := st.live.filter (fun t => decide (t ∉ task.taskIds)) },
      RegistryEvent.stopSignalSent task.stopChannel ::
        task.join_handles.map (fun h =>
          if h.finishesInTime then RegistryEvent.handleJoined h.taskId
          else RegistryEvent.handleAborted h.taskId))

/-- ble.rs lines 781-892, registry aspect of
start_battery_notification_monitor: first fully stop any existing monitor
for the id (line 789), then run the fallible setup (adapter, lookup,
connect, resolve, spawn — lines 791-882, abstracted here as `spawn`: on
success the new MonitorTask whose handles are the freshly spawned tasks);
on setup success install the new entry (lines 884-887), on setup failure
return the error with nothing installed. -/
def start_battery_notification_monitor_registry (id : String)
    (spawn : Except String MonitorTask) (st : RegState) :
    RegState × List RegistryEvent × Except String Unit :=
  let stopped := stop_battery_notification_monitor_internal id st
  match spawn with
  | Except.error e => (stopped.1, stopped.2, Except.error e)
  | Except.ok task =>
    ({ monitors := (id, task) :: stopped.1.monitors.filter (fun p => p.1 != id),
       live := stopped.1.live ++ task.taskIds },
      stopped.2 ++ [RegistryEvent.taskInstalled id task.stopChannel],
      Except.ok ())

/-- ble.rs lines 894-900: the stop_battery_notification_monitor command —
delegates to the internal stop and unconditionally returns Ok(()). -/
def stop_battery_notification_monitor (id : String) (st : RegState) :
    RegState × List RegistryEvent × Except String Unit :=
  let stopped := stop_battery_notification_monitor_internal id st
  (stopped.1, stopped.2, Except.ok ())

/-- Environment of the one-shot get_battery_info command: the responses of
get_adapter (ble.rs line 758), get_target_device (line 759), connect_device
(lines 762-765) and disconnect_device (lines 772-775). -/
structure OneShotEnv where
  adapterResult : Except String Unit
  targetResult : Except String GattDevice
  connectResult : Except String Unit
  disconnectResult : Except String Unit

/-- ble.rs lines 756-779: get_battery_info. Adapter, device lookup, connect,
characteristic resolution, strict reads — then the disconnect, whose error
is propagated with `?` (lines 772-775) just like the earlier steps. -/
def get_battery_info (env : OneShotEnv) : Except String (List BatteryInfo) := do
  let _ ← env.adapterResult
  let target_device ← env.targetResult
  let _ ← env.connectResult
  let contexts ← get_battery_characteristic_contexts target_device
  let battery_infos ← (read_battery_infos_strict contexts).2
  let _ ← env.disconnectResult
  pure battery_infos

/-- How one pass of a background loop ends. -/
inductive WorkerStepEnd
  | terminated
  | retries
deriving DecidableEq, Repr

/-- ble.rs lines 482-486, tail of battery_notification_worker's outer loop:
after the active loop breaks, wait for the retry delay or the stop signal;
on stop, issue a best-effort disconnect whose result is discarded
(`let _ = adapter.disconnect_device(...)`) and terminate; otherwise retry. -/
def worker_after_active_loop (stopRequested : Bool)
    (disconnectResult : Except String Unit) : WorkerStepEnd :=
  if stopRequested then
    let _ := disconnectResult
    WorkerStepEnd.terminated
  else WorkerStepEnd.retries

/-- ble.rs lines 696-709, tail of battery_connection_watcher's loop: after
all workers finished, if stopped (either already or during the backoff
wait) issue a best-effort disconnect whose result is discarded and
terminate; otherwise restart the loop. -/
def watcher_after_workers (stopAtCheck : Bool) (stopDuringBackoff : Bool)
    (disconnectResult : Except String Unit) : WorkerStepEnd :=
  if stopAtCheck then
    let _ := disconnectResult
    WorkerStepEnd.terminated
  else if stopDuringBackoff then
    let _ := disconnectResult
    WorkerStepEnd.terminated
  else WorkerStepEnd.retries

/-- What start_battery_notification_monitor leaves running on success. -/
inductive SpawnedTasks
  | workers (count : Nat)
  | watcher
deriving DecidableEq, Repr

/-- The successful result of start_battery_notification_monitor: the
initial snapshot returned to the caller and the tasks spawned. -/
structure StartOutcome where
  initial : List BatteryInfo
  spawned : SpawnedTasks
deriving DecidableEq, Repr

/-- Environment of start_battery_notification_monitor's fast path: the
responses of get_adapter (ble.rs line 787), get_target_device (line 795)
and connect_device (lines 798-801). -/
structure StartEnv where
  adapterResult : Except String Unit
  targetResult : Except String GattDevice
  connectResult : Except String Unit

/-- ble.rs lines 811-821, fast path of start_battery_notification_monitor:
keep the contexts whose properties advertise notify or indicate; a
properties error is propagated with `?` (line 817). -/
def filter_notify_contexts_strict :
    List BatteryCharacteristicContext →
      Except String (List BatteryCharacteristicContext)
  | [] => Except.ok []
  | context :: rest => do
    let properties ← context.characteristic.propertiesResult
    let tail ← filter_notify_contexts_strict rest
    if properties.notify || properties.indicate then
      pure (context :: tail)
    else
      pure tail

/-- ble.rs lines 635-641, watcher path: keep the contexts whose properties
advertise notify or indicate; a characteristic whose properties call errors
is silently skipped (the `_ => {}` arm at line 639). -/
def filter_notify_contexts_watcher
    (contexts : List BatteryCharacteristicContext) :
    List BatteryCharacteristicContext :=
  contexts.filter (fun context =>
    match context.characteristic.propertiesResult with
    | Except.ok properties => properties.notify || properties.indicate
    | Except.error _ => false)

/-- ble.rs lines 781-892, result and branching of
start_battery_notification_monitor (the registry manipulation is modelled
separately by `start_battery_notification_monitor_registry`): after the
adapter is obtained, a failing device lookup takes the Err arm (lines
864-881) which spawns the connection watcher and succeeds with an empty
snapshot; on the fast path, connect errors propagate, an empty context list
fails with "Battery level characteristic not found" (lines 805-807), the
best-effort snapshot is taken, and an empty notify-capable sublist fails
with "Battery level notification is not supported by this device" (lines
823-827); otherwise one worker per notify-capable context is spawned. -/
def start_battery_notification_monitor (env : StartEnv) :
    Except String StartOutcome := do
  let _ ← env.adapterResult
  match env.targetResult with
  | Except.ok target_device => do
    let _ ← env.connectResult
    let contexts ← get_battery_characteristic_contexts target_device
    if contexts.isEmpty then
      throw "Battery level characteristic not found"
    let initial_battery_infos := read_battery_infos_best_effort contexts
    let notify_contexts ← filter_notify_contexts_strict contexts
    if notify_contexts.isEmpty then
      throw "Battery level notification is not supported by this device"
    pure { initial := initial_battery_infos,
           spawned := SpawnedTasks.workers notify_contexts.length }
  | Except.error _ =>
    pure { initial := [], spawned := SpawnedTasks.watcher }

/-- How the characteristic-resolution pass of the connection watcher ends. -/
inductive WatcherStepOutcome
  | stopped
  | retries
  | spawnsWorkers (count : Nat)
deriving DecidableEq, Repr

/-- ble.rs lines 623-650, the watcher's pass after link confirmation:
resolve contexts (an error leads to backoff-retry-or-stop, lines 625-632),
filter to notify-capable ones, and when none qualify backoff-retry-or-stop
(lines 643-650) — never a terminal error; otherwise spawn the workers.
`stopDuringBackoff` is the oracle for whether the stop signal arrives
during the backoff wait. -/
def battery_connection_watcher_resolve (target_device : GattDevice)
    (stopDuringBackoff : Bool) : WatcherStepOutcome :=
  match get_battery_characteristic_contexts target_device with
  | Except.error _ =>
    if stopDuringBackoff then WatcherStepOutcome.stopped
    else WatcherStepOutcome.retries
  | Except.ok contexts =>
    let notify_contexts := filter_notify_contexts_watcher contexts
    if notify_contexts.isEmpty then
      if stopDuringBackoff then WatcherStepOutcome.stopped
      else WatcherStepOutcome.retries
    else
      WatcherStepOutcome.spawnsWorkers notify_contexts.length

/-- A connected device as seen by list_battery_devices: the response of its
`name()` call (ble.rs lines 744-747) and its formatted id (line 748). -/
structure ListedDevice where
  nameResult : Except String String
  formattedId : String

/-- ble.rs lines 743-750, the collection loop of list_battery_devices: a
device whose name cannot be read is skipped (`Err(_) => continue`); every
other device contributes one entry pairing its name with its formatted id,
in enumeration order. -/
def collect_device_infos : List ListedDevice → List BleDeviceInfo
  | [] => []
  | device :: rest =>
    match device.nameResult with
    | Except.ok n =>
      { name := n, id := device.formattedId } :: collect_device_infos rest
    | Except.error _ => collect_device_infos rest

/-- ble.rs lines 731-754: list_battery_devices. Adapter and device
enumeration errors propagate; the collected entries are returned. -/
def list_battery_devices (adapterResult : Except String Unit)
    (devicesResult : Except String (List ListedDevice)) :
    Except String (List BleDeviceInfo) := do
  let _ ← adapterResult
  let devices ← devicesResult
  pure (collect_device_infos devices)

/-! ### Concrete fixtures used by witnesses and counterexamples -/

/-- A user-description descriptor whose read fails. -/
def exDescReadFail : GattDescriptor :=
  { uuid := CHARACTERISTIC_USER_DESCRIPTION,
    readResult := Except.error "descriptor read failed" }

/-- A battery-level characteristic whose user-description descriptor read
fails. -/
def exCharDescReadFail : GattCharacteristic :=
  { uuid := BATTERY_LEVEL_UUID, readResult := Except.ok [50],
    descriptorsResult := Except.ok [exDescReadFail],
    propertiesResult := Except.ok { notify := true, indicate := false } }

/-- A device exposing one battery service with `exCharDescReadFail`. -/
def exDevDescReadFail : GattDevice :=
  { servicesResult := Except.ok
      [{ uuid := BATTERY_SERVICE_UUID,
         characteristicsResult := Except.ok [exCharDescReadFail] }] }

/-- A device whose battery service exposes no characteristics at all. -/
def exDevNoBatteryChars : GattDevice :=
  { servicesResult := Except.ok
      [{ uuid := BATTERY_SERVICE_UUID, characteristicsResult := Except.ok [] }] }

/-- A battery-level characteristic whose user-description descriptor reads
a non-UTF-8 payload (a lone 0xFF byte). -/
def exCharBadUtf8Desc : GattCharacteristic :=
  { uuid := BATTERY_LEVEL_UUID, readResult := Except.ok [50],
    descriptorsResult := Except.ok
      [{ uuid := CHARACTERISTIC_USER_DESCRIPTION, readResult := Except.ok [255] }],
    propertiesResult := Except.ok { notify := true, indicate := false } }

/-- A healthy battery-level characteristic reading level 50, no
descriptors. -/
def exCharOk : GattCharacteristic :=
  { uuid := BATTERY_LEVEL_UUID, readResult := Except.ok [50],
    descriptorsResult := Except.ok [],
    propertiesResult := Except.ok { notify := true, indicate := false } }

/-- A device exposing one battery service with `exCharOk`. -/
def exDevOk : GattDevice :=
  { servicesResult := Except.ok
      [{ uuid := BATTERY_SERVICE_UUID, characteristicsResult := Except.ok [exCharOk] }] }

/-- A one-shot environment where everything succeeds except the final
disconnect. -/
def exOneShotDisconnectFail : OneShotEnv :=
  { adapterResult := Except.ok (), targetResult := Except.ok exDevOk,
    connectResult := Except.ok (),
    disconnectResult := Except.error "disconnect failed" }

/-- The same one-shot environment with a succeeding disconnect. -/
def exOneShotDisconnectOk : OneShotEnv :=
  { adapterResult := Except.ok (), targetResult := Except.ok exDevOk,
    connectResult := Except.ok (), disconnectResult := Except.ok () }

/-- Context A: its characteristic read fails. -/
def exCtxReadFail : BatteryCharacteristicContext :=
  { characteristic :=
      { uuid := BATTERY_LEVEL_UUID, readResult := Except.error "read failed A",
        descriptorsResult := Except.ok [],
        propertiesResult := Except.ok { notify := true, indicate := false } },
    user_descriptor := some "Left" }

/-- Context B: its characteristic reads the payload [88, 2]. -/
def exCtxReadOk : BatteryCharacteristicContext :=
  { characteristic :=
      { uuid := BATTERY_LEVEL_UUID, readResult := Except.ok [88, 2],
        descriptorsResult := Except.ok [],
        propertiesResult := Except.ok { notify := true, indicate := false } },
    user_descriptor := some "Right" }

/-- A battery-level characteristic that advertises neither notify nor
indicate. -/
def exCharNoNotify : GattCharacteristic :=
  { uuid := BATTERY_LEVEL_UUID, readResult := Except.ok [9],
    descriptorsResult := Except.ok [],
    propertiesResult := Except.ok { notify := false, indicate := false } }

/-- A reachable device whose only battery characteristic is not
notify-capable. -/
def exDevNoNotify : GattDevice :=
  { servicesResult := Except.ok
      [{ uuid := BATTERY_SERVICE_UUID,
         characteristicsResult := Except.ok [exCharNoNotify] }] }

/-- A start environment where the device lookup fails. -/
def exStartEnvNotFound : StartEnv :=
  { adapterResult := Except.ok (),
    targetResult := Except.error "Device not found",
    connectResult := Except.ok () }

/-- A start environment reaching `exDevNoNotify`. -/
def exStartEnvNoNotify : StartEnv :=
  { adapterResult := Except.ok (), targetResult := Except.ok exDevNoNotify,
    connectResult := Except.ok () }

/-- A monitor task with two handles, one of which ignores the stop signal
and must be aborted. -/
def exTask1 : MonitorTask :=
  { stopChannel := 1, join_handles := [⟨11, true⟩, ⟨12, false⟩] }

/-- A second monitor task with one well-behaved handle. -/
def exTask2 : MonitorTask :=
  { stopChannel := 2, join_handles := [⟨21, true⟩] }

/-- The empty registry state. -/
def exRegStateEmpty : RegState := { monitors := [], live := [] }

/-- A registry state with one installed monitor ("dev" owning `exTask1`)
whose two worker tasks are running. -/
def exRegStateOne : RegState :=
  { monitors := [("dev", exTask1)], live := [11, 12] }

/-- A connected device whose name cannot be read. -/
def exListedNameFail : ListedDevice :=
  { nameResult := Except.error "name unavailable", formattedId := "DeviceId(1)" }

/-- A connected device with a readable name. -/
def exListedNameOk : ListedDevice :=
  { nameResult := Except.ok "Corne", formattedId := "DeviceId(2)" }

/-! ### Helper lemmas -/

/-- Strict reading over contexts that all read successfully: one BatteryInfo
per context in order, every characteristic attempted. -/
theorem read_strict_all_ok (ctxs : List BatteryCharacteristicContext)
    (h : ∀ x ∈ ctxs, ∃ v, x.characteristic.readResult = Except.ok v) :
    read_battery_infos_strict ctxs =
      (ctxs.map (fun x => x.characteristic),
        Except.ok (ctxs.map (fun x =>
          { battery_level := x.characteristic.readResult.toOption.bind (fun v => v.head?),
            user_descriptor := x.user_descriptor }))) := by
  induction ctxs with
  | nil => rfl
  | cons c rest ih =>
    obtain ⟨v, hv⟩ := h c (by simp)
    have hrest : ∀ x ∈ rest, ∃ v, x.characteristic.readResult = Except.ok v :=
      fun x hx => h x (by simp [hx])
    simp [read_battery_infos_strict, hv, ih hrest, Except.toOption, Except.map]

/-- Strict reading aborts at the first failing context with its error,
attempting exactly the contexts up to and including it. -/
theorem read_strict_first_error (pre post : List BatteryCharacteristicContext)
    (c : BatteryCharacteristicContext) (e : String)
    (hpre : ∀ x ∈ pre, ∃ v, x.characteristic.readResult = Except.ok v)
    (hc : c.characteristic.readResult = Except.error e) :
    read_battery_infos_strict (pre ++ c :: post) =
      ((pre ++ [c]).map (fun x => x.characteristic), Except.error e) := by
  induction pre with
  | nil => simp [read_battery_infos_strict, hc]
  | cons x pre ih =>
    obtain ⟨v, hv⟩ := hpre x (by simp)
    have hpre2 : ∀ y ∈ pre, ∃ v, y.characteristic.readResult = Except.ok v :=
      fun y hy => hpre y (by simp [hy])
    simp [read_battery_infos_strict, hv, ih hpre2, Except.map]

/-- The collection loop of list_battery_devices keeps exactly the devices
with readable names, in order. -/
theorem collect_device_infos_eq_filterMap (devices : List ListedDevice) :
    collect_device_infos devices =
      devices.filterMap (fun d =>
        d.nameResult.toOption.map (fun n => { name := n, id := d.formattedId })) := by
  induction devices with
  | nil => rfl
  | cons d rest ih =>
    cases h : d.nameResult <;>
      simp [collect_device_infos, h, ih, Except.toOption]

/-- One aggregator update: the connected set moves to `nextWorkers`, the
stored flag tracks the set's non-emptiness, and an event is produced exactly
when the new flag differs from the stored one. -/
theorem update_state_step (id : String) (u : Nat × Bool)
    (st : MonitorConnectionState) :
    (update_monitor_connection_state id u.1 u.2 st).1.connected_workers =
        nextWorkers st.connected_workers u ∧
    (update_monitor_connection_state id u.1 u.2 st).1.is_connected =
        decide (nextWorkers st.connected_workers u ≠ ∅) ∧
    (update_monitor_connection_state id u.1 u.2 st).2 =
      (if decide (nextWorkers st.connected_workers u ≠ ∅) ≠ st.is_connected
       then some { id := id,
                   connected := decide (nextWorkers st.connected_workers u ≠ ∅) }
       else none) := by
  by_cases hc : decide (nextWorkers st.connected_workers u ≠ ∅) ≠ st.is_connected
  · refine ⟨?_, ?_, ?_⟩
    · simp only [update_monitor_connection_state, nextWorkers] at hc ⊢
      rw [if_pos hc]
    · simp only [update_monitor_connection_state, nextWorkers] at hc ⊢
      rw [if_pos hc]
    · simp only [update_monitor_connection_state, nextWorkers] at hc ⊢
      rw [if_pos hc, if_pos hc]
  · refine ⟨?_, ?_, ?_⟩
    · simp only [update_monitor_connection_state, nextWorkers] at hc ⊢
      rw [if_neg hc]
    · simp only [update_monitor_connection_state, nextWorkers] at hc ⊢
      rw [if_neg hc]
      exact (not_ne_iff.mp hc).symm
    · simp only [update_monitor_connection_state, nextWorkers] at hc ⊢
      rw [if_neg hc, if_neg hc]

/-- Over a whole update sequence, the number of emitted status events is
exactly the number of emptiness transitions of the connected set, provided
the stored flag initially agrees with the set's non-emptiness. -/
theorem run_updates_length (id : String) (us : List (Nat × Bool)) :
    ∀ st : MonitorConnectionState,
      st.is_connected = decide (st.connected_workers ≠ ∅) →
      ((run_updates id st us).2).length =
        emptinessTransitions st.connected_workers us := by
  induction us with
  | nil => intro st _; rfl
  | cons u us ih =>
    intro st hinv
    obtain ⟨h1, h2, h3⟩ := update_state_step id u st
    have hinv1 : (update_monitor_connection_state id u.1 u.2 st).1.is_connected =
        decide ((update_monitor_connection_state id u.1 u.2 st).1.connected_workers ≠ ∅) := by
      rw [h1, h2]
    have hrun : run_updates id st (u :: us) =
        ((run_updates id (update_monitor_connection_state id u.1 u.2 st).1 us).1,
          (update_monitor_connection_state id u.1 u.2 st).2.toList ++
            (run_updates id (update_monitor_connection_state id u.1 u.2 st).1 us).2) := rfl
    rw [hrun]
    simp only [List.length_append, ih _ hinv1, h1]
    rw [h3, hinv]
    simp only [emptinessTransitions]
    by_cases hiff : nextWorkers st.connected_workers u = ∅ ↔ st.connected_workers = ∅
    · simp [hiff]
    · simp [hiff]

/-! ### Claim theorems -/

/-- C5: read_battery_infos_strict reads each CharacteristicContext in list
order; when every read succeeds it returns one BatteryInfo per context in
the same order, with every characteristic attempted; at the first read
failure it aborts with that characteristic's error, having attempted only
the contexts up to and including the failing one — no later characteristic
is attempted. -/
theorem c5_read_strict_order_and_abort
    (ctxs pre post : List BatteryCharacteristicContext)
    (c : BatteryCharacteristicContext) (e : String) :
    ((∀ x ∈ ctxs, ∃ v, x.characteristic.readResult = Except.ok v) →
      read_battery_infos_strict ctxs =
        (ctxs.map (fun x => x.characteristic),
          Except.ok (ctxs.map (fun x =>
            { battery_level := x.characteristic.readResult.toOption.bind (fun v => v.head?),
              user_descriptor := x.user_descriptor })))) ∧
    (ctxs = pre ++ c :: post →
      (∀ x ∈ pre, ∃ v, x.characteristic.readResult = Except.ok v) →
      c.characteristic.readResult = Except.error e →
      read_battery_infos_strict ctxs =
        ((pre ++ [c]).map (fun x => x.characteristic), Except.error e)) := by
  constructor
  · exact fun h => read_strict_all_ok ctxs h
  · rintro rfl hpre hc
    exact read_strict_first_error pre post c e hpre hc

/-- Witness for C5 at a concrete input: with context A failing and context
B succeeding, strict reading returns A's error and attempts only A's
characteristic, never B's. -/
theorem c5_read_strict_order_and_abort_witness :
    read_battery_infos_strict [exCtxReadFail, exCtxReadOk] =
      ([exCtxReadFail.characteristic], Except.error "read failed A") := by
  have h := (c5_read_strict_order_and_abort [exCtxReadFail, exCtxReadOk] []
    [exCtxReadOk] exCtxReadFail "read failed A").2 rfl (by simp) rfl
  simpa using h

/-- C6: read_battery_infos_best_effort never raises an error (it is total
into a plain list): it returns exactly one BatteryInfo per context in input
order; a context whose read fails yields an absent battery_level with its
label preserved and reading continues; a list where A fails and B succeeds
yields the absent-level entry followed by B's first byte. -/
theorem c6_read_best_effort_degrades
    (ctxs : List BatteryCharacteristicContext)
    (c cA cB : BatteryCharacteristicContext) (e eA : String) (v vB : List Nat) :
    (read_battery_infos_best_effort ctxs).length = ctxs.length ∧
    (∀ i : Nat, (read_battery_infos_best_effort ctxs)[i]? =
      (ctxs[i]?).map (fun x =>
        { battery_level := x.characteristic.readResult.toOption.bind (fun w => w.head?),
          user_descriptor := x.user_descriptor })) ∧
    (c.characteristic.readResult = Except.error e →
      read_battery_infos_best_effort (c :: ctxs) =
        { battery_level := none, user_descriptor := c.user_descriptor } ::
          read_battery_infos_best_effort ctxs) ∧
    (c.characteristic.readResult = Except.ok v →
      read_battery_infos_best_effort (c :: ctxs) =
        { battery_level := v.head?, user_descriptor := c.user_descriptor } ::
          read_battery_infos_best_effort ctxs) ∧
    (cA.characteristic.readResult = Except.error eA →
      cB.characteristic.readResult = Except.ok vB →
      read_battery_infos_best_effort [cA, cB] =
        [{ battery_level := none, user_descriptor := cA.user_descriptor },
         { battery_level := vB.head?, user_descriptor := cB.user_descriptor }]) := by
  refine ⟨by simp [read_battery_infos_best_effort], ?_, ?_, ?_, ?_⟩
  · intro i
    simp [read_battery_infos_best_effort]
  · intro h
    simp [read_battery_infos_best_effort, h, Except.toOption]
  · intro h
    simp [read_battery_infos_best_effort, h, Except.toOption]
  · intro hA hB
    simp [read_battery_infos_best_effort, hA, hB, Except.toOption]

/-- Witness for C6 at a concrete input: context A fails, context B reads
[88, 2]; the result is level-absent for A (label kept) and level 88 for B,
with no error raised. -/
theorem c6_read_best_effort_degrades_witness :
    read_battery_infos_best_effort [exCtxReadFail, exCtxReadOk] =
      [{ battery_level := none, user_descriptor := some "Left" },
       { battery_level := some 88, user_descriptor := some "Right" }] := by
  have h := (c6_read_best_effort_degrades [] exCtxReadFail exCtxReadFail exCtxReadOk
    "e" "read failed A" [] [88, 2]).2.2.2.2 rfl rfl
  simpa using h

/-- C7: everywhere a battery value payload is parsed — strict reads,
best-effort reads, and notification events — the level is exactly the
first byte of the raw value: an empty payload yields an absent level, not
zero, and a longer payload yields its first byte with the rest ignored. -/
theorem c7_first_byte_semantics (c : GattCharacteristic) (u : Option String)
    (v data rest2 : List Nat) (did : String) (b : Nat) :
    (c.readResult = Except.ok v →
      (read_battery_infos_strict [{ characteristic := c, user_descriptor := u }]).2 =
        Except.ok [{ battery_level := v.head?, user_descriptor := u }] ∧
      read_battery_infos_best_effort [{ characteristic := c, user_descriptor := u }] =
        [{ battery_level := v.head?, user_descriptor := u }]) ∧
    (notification_event_payload did { characteristic := c, user_descriptor := u } data =
      { id := did,
        battery_info := { battery_level := data.head?, user_descriptor := u } }) ∧
    (data = [] →
      notification_event_payload did { characteristic := c, user_descriptor := u } data =
        { id := did, battery_info := { battery_level := none, user_descriptor := u } }) ∧
    (data = b :: rest2 →
      notification_event_payload did { characteristic := c, user_descriptor := u } data =
        { id := did, battery_info := { battery_level := some b, user_descriptor := u } }) := by
  refine ⟨fun h => ⟨?_, ?_⟩, rfl, ?_, ?_⟩
  · simp [read_battery_infos_strict, h, Except.map]
  · simp [read_battery_infos_best_effort, h, Except.toOption]
  · rintro rfl
    rfl
  · rintro rfl
    rfl

/-- Witness for C7 at concrete inputs: payload [77, 2] parses to level 77
(second byte ignored) at all three sites, and the empty payload parses to
an absent level. -/
theorem c7_first_byte_semantics_witness :
    (read_battery_infos_strict
        [{ characteristic :=
             { uuid := 0x2A19, readResult := Except.ok [77, 2],
               descriptorsResult := Except.ok [],
               propertiesResult := Except.ok { notify := true, indicate := false } },
           user_descriptor := some "Right" }]).2 =
      Except.ok [{ battery_level := some 77, user_descriptor := some "Right" }] ∧
    notification_event_payload "dev" { characteristic := exCharOk, user_descriptor := none }
        [77, 2] =
      { id := "dev",
        battery_info := { battery_level := some 77, user_descriptor := none } } ∧
    notification_event_payload "dev" { characteristic := exCharOk, user_descriptor := none }
        [] =
      { id := "dev",
        battery_info := { battery_level := none, user_descriptor := none } } := by
  refine ⟨?_, ?_, ?_⟩
  · exact ((c7_first_byte_semantics
      { uuid := 0x2A19, readResult := Except.ok [77, 2],
        descriptorsResult := Except.ok [],
        propertiesResult := Except.ok { notify := true, indicate := false } }
      (some "Right") [77, 2] [] [] "dev" 0).1 rfl).1
  · exact (c7_first_byte_semantics exCharOk none [] [77, 2] [2] "dev" 77).2.2.2 rfl
  · exact (c7_first_byte_semantics exCharOk none [] [] [] "dev" 0).2.2.1 rfl

/-- C10: list_battery_devices silently omits every connected device whose
name cannot be read — such a device neither fails the command nor produces
an entry — and each returned entry pairs a successfully read name with that
device's formatted id, in enumeration order. -/
theorem c10_list_devices_skips_unnamed (devices : List ListedDevice)
    (d : ListedDevice) (e : String) :
    (list_battery_devices (Except.ok ()) (Except.ok devices) =
      Except.ok (devices.filterMap (fun x =>
        x.nameResult.toOption.map (fun n => { name := n, id := x.formattedId })))) ∧
    (d.nameResult = Except.error e →
      collect_device_infos (d :: devices) = collect_device_infos devices) ∧
    (∀ n, d.nameResult = Except.ok n →
      collect_device_infos (d :: devices) =
        { name := n, id := d.formattedId } :: collect_device_infos devices) := by
  refine ⟨?_, ?_, ?_⟩
  · simp only [list_battery_devices, bind, Except.bind, pure, Except.pure]
    rw [collect_device_infos_eq_filterMap]
  · intro h
    simp [collect_device_infos, h]
  · intro n h
    simp [collect_device_infos, h]

/-- Witness for C10 at a concrete input: one unnamed and one named device
yield a single entry for the named one, with no error. -/
theorem c10_list_devices_skips_unnamed_witness :
    list_battery_devices (Except.ok ())
        (Except.ok [exListedNameFail, exListedNameOk]) =
      Except.ok [{ name := "Corne", id := "DeviceId(2)" }] := by
  have h := (c10_list_devices_skips_unnamed [exListedNameFail, exListedNameOk]
    exListedNameFail "name unavailable").1
  simpa [exListedNameFail, exListedNameOk, Except.toOption] using h

/-- C2: each update_monitor_connection_state call inserts or removes the
worker id from the connected set under the lock, computes next = (set is
non-empty), and emits exactly one status event with payload {device_id,
connected: next} if and only if next differs from the last-published value;
hence over any update sequence the number of emitted status events equals
the number of emptiness transitions of the connected set, never more. -/
theorem c2_aggregator_edge_events (id : String) (u : Nat × Bool)
    (st : MonitorConnectionState) (us : List (Nat × Bool))
    (hinv : st.is_connected = decide (st.connected_workers ≠ ∅)) :
    (update_monitor_connection_state id u.1 u.2 st).1.connected_workers =
        nextWorkers st.connected_workers u ∧
    ((update_monitor_connection_state id u.1 u.2 st).2 =
      if decide (nextWorkers st.connected_workers u ≠ ∅) ≠ st.is_connected
      then some { id := id,
                  connected := decide (nextWorkers st.connected_workers u ≠ ∅) }
      else none) ∧
    ((run_updates id st us).2).length =
      emptinessTransitions st.connected_workers us :=
  ⟨(update_state_step id u st).1, (update_state_step id u st).2.2,
    run_updates_length id us st hinv⟩

/-- Witness for C2 at a concrete input: from the default state, the
four-update trace up(0), up(1), down(0), down(1) across two workers emits
as many events as the set's emptiness transitions — two. -/
theorem c2_aggregator_edge_events_witness :
    ((run_updates "dev" initialMonitorConnectionState
        [(0, true), (1, true), (0, false), (1, false)]).2).length =
      emptinessTransitions (∅ : Finset Nat)
        [(0, true), (1, true), (0, false), (1, false)] ∧
    ((run_updates "dev" initialMonitorConnectionState
        [(0, true), (1, true), (0, false), (1, false)]).2).length = 2 :=
  ⟨(c2_aggregator_edge_events "dev" (0, true) initialMonitorConnectionState
      [(0, true), (1, true), (0, false), (1, false)] (by decide)).2.2,
    by decide⟩

/-- A mapM over Except succeeds when every element's action succeeds. -/
theorem mapM_ok_of_forall {α β : Type} (f : α → Except String β) :
    ∀ l : List α, (∀ a ∈ l, ∃ b, f a = Except.ok b) →
      ∃ bs, l.mapM f = Except.ok bs := by
  intro l
  induction l with
  | nil => exact fun _ => ⟨[], rfl⟩
  | cons a l ih =>
    intro h
    obtain ⟨b, hb⟩ := h a (by simp)
    obtain ⟨bs, hbs⟩ := ih (fun x hx => h x (by simp [hx]))
    refine ⟨b :: bs, ?_⟩
    rw [List.mapM_cons, hb, hbs]
    rfl

/-- A mapM over Except whose every element yields the empty list succeeds
with a flattening-to-empty result. -/
theorem mapM_ok_nils {α : Type} (f : α → Except String (List BatteryCharacteristicContext)) :
    ∀ l : List α, (∀ a ∈ l, f a = Except.ok []) →
      ∃ ls, l.mapM f = Except.ok ls ∧ ls.flatten = ([] : List BatteryCharacteristicContext) := by
  intro l
  induction l with
  | nil => exact fun _ => ⟨[], rfl, rfl⟩
  | cons a l ih =>
    intro h
    obtain ⟨ls, hls, hflat⟩ := ih (fun x hx => h x (by simp [hx]))
    refine ⟨[] :: ls, ?_, by simp [hflat]⟩
    rw [List.mapM_cons, h a (by simp), hls]
    rfl

/-- resolveCharacteristic succeeds whenever the descriptor enumeration and
the user-description read (if such a descriptor is present) succeed. -/
theorem resolveCharacteristic_ok (c : GattCharacteristic)
    (h : ∃ ds, c.descriptorsResult = Except.ok ds ∧
      ∀ d2, ds.find? (fun d => d.uuid == CHARACTERISTIC_USER_DESCRIPTION) = some d2 →
        ∃ bs, d2.readResult = Except.ok bs) :
    ∃ ctx, resolveCharacteristic c = Except.ok ctx := by
  obtain ⟨ds, hds, hread⟩ := h
  cases hfind : ds.find? (fun d => d.uuid == CHARACTERISTIC_USER_DESCRIPTION) with
  | none =>
    refine ⟨{ characteristic := c, user_descriptor := none }, ?_⟩
    unfold resolveCharacteristic
    rw [hds]
    simp only [bind, Except.bind, hfind]
    rfl
  | some d2 =>
    obtain ⟨bs, hbs⟩ := hread d2 hfind
    refine ⟨{ characteristic := c, user_descriptor := utf8Decode bs }, ?_⟩
    unfold resolveCharacteristic
    rw [hds]
    simp only [bind, Except.bind, hfind]
    rw [hbs]
    rfl

/-- The single byte 0xFF is not valid UTF-8, so its decode is none. -/
theorem utf8Decode_ff : utf8Decode [255] = none := by
  have hv : String.validateUTF8 (ByteArray.mk (Array.mk [(255 : UInt8)])) = false := by
    rw [String.validateUTF8]
    rw [String.validateUTF8.loop]
    decide
  simp [utf8Decode, String.fromUTF8?, hv]

/-- resolveService yields the empty context list for a battery service
whose characteristic enumeration succeeds with no battery-level
characteristic. -/
theorem resolveService_nil (s : GattService)
    (cs : List GattCharacteristic) (hcs : s.characteristicsResult = Except.ok cs)
    (hfilter : cs.filter (fun c2 => c2.uuid == BATTERY_LEVEL_UUID) = []) :
    resolveService s = Except.ok [] := by
  unfold resolveService
  rw [hcs]
  simp only [bind, Except.bind]
  rw [hfilter]
  rfl

/-- C3 (amended): get_battery_characteristic_contexts returns an error
exactly when an enumeration call or a present user-description descriptor's
read errors. A non-UTF-8 descriptor payload leaves the label absent without
failing the resolution; zero battery characteristics yields a successful
empty list; but a user-description descriptor read failure is propagated as
the overall error (the claim's "read failure leaves the label absent
without failing" does not hold — see the counterexample). -/
theorem c3_resolver_error_policy (dev : GattDevice) (c : GattCharacteristic)
    (descriptors : List GattDescriptor) (dsc : GattDescriptor)
    (bytes : List Nat) (e : String) :
    (∀ services, dev.servicesResult = Except.ok services →
      (∀ s ∈ services, s.uuid = BATTERY_SERVICE_UUID →
        ∃ cs, s.characteristicsResult = Except.ok cs ∧
          cs.filter (fun c2 => c2.uuid == BATTERY_LEVEL_UUID) = []) →
      get_battery_characteristic_contexts dev = Except.ok []) ∧
    (c.descriptorsResult = Except.ok descriptors →
      descriptors.find? (fun d => d.uuid == CHARACTERISTIC_USER_DESCRIPTION) = some dsc →
      dsc.readResult = Except.ok bytes → utf8Decode bytes = none →
      resolveCharacteristic c =
        Except.ok { characteristic := c, user_descriptor := none }) ∧
    (c.descriptorsResult = Except.ok descriptors →
      descriptors.find? (fun d => d.uuid == CHARACTERISTIC_USER_DESCRIPTION) = some dsc →
      dsc.readResult = Except.error e →
      resolveCharacteristic c = Except.error e) ∧
    (∀ services, dev.servicesResult = Except.ok services →
      (∀ s ∈ services, s.uuid = BATTERY_SERVICE_UUID →
        ∃ cs, s.characteristicsResult = Except.ok cs ∧
          ∀ c2 ∈ cs, c2.uuid = BATTERY_LEVEL_UUID →
            ∃ ds, c2.descriptorsResult = Except.ok ds ∧
              ∀ d2, ds.find? (fun d => d.uuid == CHARACTERISTIC_USER_DESCRIPTION) = some d2 →
                ∃ bs, d2.readResult = Except.ok bs) →
      ∃ ctxs, get_battery_characteristic_contexts dev = Except.ok ctxs) := by
  refine ⟨?_, ?_, ?_, ?_⟩
  · intro services hsrv hsvc
    have hall : ∀ s ∈ services.filter (fun s => s.uuid == BATTERY_SERVICE_UUID),
        resolveService s = Except.ok [] := by
      intro s hs
      rw [List.mem_filter] at hs
      obtain ⟨cs, hcs, hfilter⟩ := hsvc s hs.1 (by simpa using hs.2)
      exact resolveService_nil s cs hcs hfilter
    obtain ⟨ls, hls, hflat⟩ := mapM_ok_nils resolveService _ hall
    unfold get_battery_characteristic_contexts
    rw [hsrv]
    simp only [bind, Except.bind]
    rw [hls]
    simp [pure, Except.pure, hflat]
  · intro hds hfind hread hdecode
    unfold resolveCharacteristic
    rw [hds]
    simp only [bind, Except.bind, hfind]
    rw [hread]
    simp [Except.map, hdecode, pure, Except.pure]
  · intro hds hfind hread
    unfold resolveCharacteristic
    rw [hds]
    simp only [bind, Except.bind, hfind]
    rw [hread]
  · intro services hsrv hsvc
    have hall : ∀ s ∈ services.filter (fun s => s.uuid == BATTERY_SERVICE_UUID),
        ∃ res, resolveService s = Except.ok res := by
      intro s hs
      rw [List.mem_filter] at hs
      obtain ⟨cs, hcs, hchars⟩ := hsvc s hs.1 (by simpa using hs.2)
      have hres : ∀ c2 ∈ cs.filter (fun c2 => c2.uuid == BATTERY_LEVEL_UUID),
          ∃ ctx, resolveCharacteristic c2 = Except.ok ctx := by
        intro c2 hc2
        rw [List.mem_filter] at hc2
        exact resolveCharacteristic_ok c2 (hchars c2 hc2.1 (by simpa using hc2.2))
      obtain ⟨ctxs, hctxs⟩ := mapM_ok_of_forall resolveCharacteristic _ hres
      refine ⟨ctxs, ?_⟩
      unfold resolveService
      rw [hcs]
      simp only [bind, Except.bind]
      rw [hctxs]
    obtain ⟨ls, hls⟩ := mapM_ok_of_forall resolveService _ hall
    refine ⟨ls.flatten, ?_⟩
    unfold get_battery_characteristic_contexts
    rw [hsrv]
    simp only [bind, Except.bind]
    rw [hls]
    rfl

/-- Counterexample for C3 as stated: on a device whose enumeration
succeeds but whose user-description descriptor read fails, the overall
resolution fails with that error instead of leaving the label absent. -/
theorem c3_counterexample :
    get_battery_characteristic_contexts exDevDescReadFail =
      Except.error "descriptor read failed" := by
  rfl

/-- Witness for C3 (amended) at concrete inputs: zero battery
characteristics yield a successful empty list, and a non-UTF-8 descriptor
payload (0xFF) yields a context with an absent label, not an error. -/
theorem c3_resolver_error_policy_witness :
    get_battery_characteristic_contexts exDevNoBatteryChars = Except.ok [] ∧
    resolveCharacteristic exCharBadUtf8Desc =
      Except.ok { characteristic := exCharBadUtf8Desc, user_descriptor := none } := by
  constructor
  · exact (c3_resolver_error_policy exDevNoBatteryChars exCharBadUtf8Desc [] exDescReadFail
      [] "e").1 _ rfl (by intro s hs _; exact ⟨[], by
        simp only [List.mem_singleton] at hs
        rw [hs], rfl⟩)
  · exact (c3_resolver_error_policy exDevNoBatteryChars exCharBadUtf8Desc
      [{ uuid := CHARACTERISTIC_USER_DESCRIPTION, readResult := Except.ok [255] }]
      { uuid := CHARACTERISTIC_USER_DESCRIPTION, readResult := Except.ok [255] }
      [255] "e").2.1 rfl (by rfl) rfl utf8Decode_ff

/-- C4 (amended): adapter disconnect is best-effort in the background
monitor tasks — the notification worker's and connection watcher's stop
paths discard the disconnect result, so their outcome is independent of it —
but the one-shot get_battery_info command propagates a disconnect failure
to the caller as an error even after its strict reads succeed (the claim's
"never escalated" does not hold there — see the counterexample). -/
theorem c4_disconnect_mixed_policy (env : OneShotEnv) (d : GattDevice)
    (ctxs : List BatteryCharacteristicContext) (infos : List BatteryInfo)
    (e : String)
    (h1 : env.adapterResult = Except.ok ())
    (h2 : env.targetResult = Except.ok d)
    (h3 : env.connectResult = Except.ok ())
    (h4 : get_battery_characteristic_contexts d = Except.ok ctxs)
    (h5 : (read_battery_infos_strict ctxs).2 = Except.ok infos) :
    (env.disconnectResult = Except.error e →
      get_battery_info env = Except.error e) ∧
    (env.disconnectResult = Except.ok () →
      get_battery_info env = Except.ok infos) ∧
    (∀ r1 r2 : Except String Unit,
      worker_after_active_loop true r1 = worker_after_active_loop true r2) ∧
    worker_after_active_loop true (Except.error e) = WorkerStepEnd.terminated ∧
    (∀ (r1 r2 : Except String Unit) (b : Bool),
      watcher_after_workers true b r1 = watcher_after_workers true b r2) ∧
    watcher_after_workers true false (Except.error e) = WorkerStepEnd.terminated := by
  refine ⟨?_, ?_, fun r1 r2 => rfl, rfl, fun r1 r2 b => rfl, rfl⟩
  · intro hd
    simp [get_battery_info, h1, h2, h3, h4, h5, hd, bind, Except.bind]
  · intro hd
    simp [get_battery_info, h1, h2, h3, h4, h5, hd, bind, Except.bind, pure, Except.pure]

/-- Counterexample for C4 as stated: with every step up to and including
the strict reads succeeding, a failing disconnect changes get_battery_info's
result from Ok to that error — the result is not the same as if the
disconnect had succeeded. -/
theorem c4_counterexample :
    get_battery_info exOneShotDisconnectFail = Except.error "disconnect failed" ∧
    get_battery_info exOneShotDisconnectOk =
      Except.ok [{ battery_level := some 50, user_descriptor := none }] :=
  ⟨rfl, rfl⟩

/-- Witness for C4 (amended) at concrete inputs: the failing disconnect is
escalated by get_battery_info, while the worker stop path terminates
identically on a failing disconnect. -/
theorem c4_disconnect_mixed_policy_witness :
    get_battery_info exOneShotDisconnectFail = Except.error "disconnect failed" ∧
    worker_after_active_loop true (Except.error "disconnect failed") =
      WorkerStepEnd.terminated := by
  have h := c4_disconnect_mixed_policy exOneShotDisconnectFail exDevOk
    [{ characteristic := exCharOk, user_descriptor := none }]
    [{ battery_level := some 50, user_descriptor := none }] "disconnect failed"
    rfl rfl rfl rfl rfl
  exact ⟨h.1 rfl, h.2.2.2.1⟩

/-- The fast path's notify filter yields the empty list when every
characteristic's properties resolve and none advertises notify or
indicate. -/
theorem filter_notify_strict_none (ctxs : List BatteryCharacteristicContext)
    (h : ∀ x ∈ ctxs, ∃ p, x.characteristic.propertiesResult = Except.ok p ∧
        p.notify = false ∧ p.indicate = false) :
    filter_notify_contexts_strict ctxs = Except.ok [] := by
  induction ctxs with
  | nil => rfl
  | cons c rest ih =>
    obtain ⟨p, hp, hn, hi⟩ := h c (by simp)
    have hrest := ih (fun x hx => h x (by simp [hx]))
    unfold filter_notify_contexts_strict
    rw [hp]
    simp only [bind, Except.bind]
    rw [hrest]
    simp [hn, hi, pure, Except.pure]

/-- The watcher's notify filter yields the empty list under the same
condition. -/
theorem filter_notify_watcher_none (ctxs : List BatteryCharacteristicContext)
    (h : ∀ x ∈ ctxs, ∃ p, x.characteristic.propertiesResult = Except.ok p ∧
        p.notify = false ∧ p.indicate = false) :
    filter_notify_contexts_watcher ctxs = [] := by
  induction ctxs with
  | nil => rfl
  | cons c rest ih =>
    obtain ⟨p, hp, hn, hi⟩ := h c (by simp)
    have hrest := ih (fun x hx => h x (by simp [hx]))
    unfold filter_notify_contexts_watcher at hrest ⊢
    rw [List.filter_cons, hp]
    simp [hn, hi, hrest]

/-- C8: start_battery_notification_monitor's error branching. A failing
device lookup does not fail the call: the Err arm spawns the connection
watcher and returns success with an empty snapshot. A reachable device with
battery characteristics none of which is notify- or indicate-capable fails
the fast path with the user-facing message, whereas the watcher path treats
the same condition as a retry, never a terminal error. -/
theorem c8_start_monitor_branching (env : StartEnv) (d : GattDevice)
    (e : String) (ctxs : List BatteryCharacteristicContext)
    (hprops : ∀ x ∈ ctxs, ∃ p, x.characteristic.propertiesResult = Except.ok p ∧
        p.notify = false ∧ p.indicate = false) :
    (env.adapterResult = Except.ok () → env.targetResult = Except.error e →
      start_battery_notification_monitor env =
        Except.ok { initial := [], spawned := SpawnedTasks.watcher }) ∧
    (env.adapterResult = Except.ok () → env.targetResult = Except.ok d →
      env.connectResult = Except.ok () →
      get_battery_characteristic_contexts d = Except.ok ctxs → ctxs ≠ [] →
      start_battery_notification_monitor env =
        Except.error "Battery level notification is not supported by this device") ∧
    (get_battery_characteristic_contexts d = Except.ok ctxs →
      battery_connection_watcher_resolve d false = WatcherStepOutcome.retries) := by
  refine ⟨?_, ?_, ?_⟩
  · intro h1 h2
    unfold start_battery_notification_monitor
    rw [h1]
    simp only [bind, Except.bind]
    rw [h2]
    rfl
  · intro h1 h2 h3 h4 hne
    obtain ⟨c0, rest, rfl⟩ := List.exists_cons_of_ne_nil hne
    unfold start_battery_notification_monitor
    rw [h1]
    simp only [bind, Except.bind]
    rw [h2]
    simp only [bind, Except.bind]
    rw [h3]
    simp only [bind, Except.bind]
    rw [h4]
    simp only [bind, Except.bind, List.isEmpty_cons, Bool.false_eq_true, if_false]
    rw [filter_notify_strict_none _ hprops]
    rfl
  · intro h4
    unfold battery_connection_watcher_resolve
    rw [h4]
    simp [filter_notify_watcher_none _ hprops]

/-- Witness for C8 at concrete inputs: a lookup failure yields a successful
start that spawns the watcher; a reachable device with a single
non-notifiable battery characteristic fails the fast path with the
user-facing message, while the watcher path retries on it. -/
theorem c8_start_monitor_branching_witness :
    start_battery_notification_monitor exStartEnvNotFound =
      Except.ok { initial := [], spawned := SpawnedTasks.watcher } ∧
    start_battery_notification_monitor exStartEnvNoNotify =
      Except.error "Battery level notification is not supported by this device" ∧
    battery_connection_watcher_resolve exDevNoNotify false =
      WatcherStepOutcome.retries := by
  have hprops : ∀ x ∈ [({ characteristic := exCharNoNotify, user_descriptor := none } :
      BatteryCharacteristicContext)],
      ∃ p, x.characteristic.propertiesResult = Except.ok p ∧
        p.notify = false ∧ p.indicate = false := by
    intro x hx
    rw [List.mem_singleton] at hx
    exact ⟨{ notify := false, indicate := false }, by rw [hx]; exact rfl, rfl, rfl⟩
  refine ⟨?_, ?_, ?_⟩
  · exact (c8_start_monitor_branching exStartEnvNotFound exDevNoNotify
      "Device not found" [] (by simp)).1 rfl rfl
  · exact (c8_start_monitor_branching exStartEnvNoNotify exDevNoNotify "e"
      [{ characteristic := exCharNoNotify, user_descriptor := none }] hprops).2.1
      rfl rfl rfl (by rfl) (by simp)
  · exact (c8_start_monitor_branching exStartEnvNoNotify exDevNoNotify "e"
      [{ characteristic := exCharNoNotify, user_descriptor := none }] hprops).2.2
      (by rfl)

/-- Looking up a key in a list from which it was just filtered out yields
nothing. -/
theorem lookup_filter_key_ne (id : String) (l : List (String × MonitorTask)) :
    (l.filter (fun p => p.1 != id)).lookup id = none := by
  induction l with
  | nil => rfl
  | cons p l ih =>
    by_cases h : p.1 = id
    · simp [List.filter_cons, h, ih]
    · have hbe : (id == p.1) = false := beq_eq_false_iff_ne.mpr (Ne.symm h)
      simp [List.filter_cons, h, List.lookup, hbe, ih]

/-- Filtering a key-removed list back to that key yields nothing. -/
theorem filter_ne_filter_eq_nil (id : String) (l : List (String × MonitorTask)) :
    (l.filter (fun p => p.1 != id)).filter (fun p => p.1 == id) = [] := by
  induction l with
  | nil => rfl
  | cons p l ih =>
    by_cases h : p.1 = id
    · simp [List.filter_cons, h, ih]
    · simp [List.filter_cons, h, ih]

/-- C1: the registry holds at most one MonitorTask per device id, and
start_battery_notification_monitor on an id with a running monitor fully
stops the old one — stop signal sent, each handle joined within the grace
timeout or forcibly aborted — before installing the new MonitorTask; two
consecutive starts on one id leave exactly one registered monitor, whose
worker tasks are the second start's, the first start's workers no longer
running. -/
theorem c1_registry_one_monitor_per_id (st st1 : RegState) (id : String)
    (t1 t2 : MonitorTask)
    (r2 : RegState × List RegistryEvent × Except String Unit)
    (hst1 : st1 = (start_battery_notification_monitor_registry id (Except.ok t1) st).1)
    (hr2 : r2 = start_battery_notification_monitor_registry id (Except.ok t2) st1) :
    r2.1.monitors.filter (fun p => p.1 == id) = [(id, t2)] ∧
    r2.1.monitors.lookup id = some t2 ∧
    (∀ a ∈ t1.taskIds, a ∉ t2.taskIds → a ∉ r2.1.live) ∧
    (∀ a ∈ t2.taskIds, a ∈ r2.1.live) ∧
    r2.2.1 = RegistryEvent.stopSignalSent t1.stopChannel ::
      (t1.join_handles.map (fun h =>
        if h.finishesInTime then RegistryEvent.handleJoined h.taskId
        else RegistryEvent.handleAborted h.taskId) ++
        [RegistryEvent.taskInstalled id t2.stopChannel]) := by
  subst hst1
  subst hr2
  have hlk : ((start_battery_notification_monitor_registry id (Except.ok t1) st).1).monitors.lookup id =
      some t1 := by
    show List.lookup id ((id, t1) ::
      (stop_battery_notification_monitor_internal id st).1.monitors.filter
        (fun p => p.1 != id)) = some t1
    simp [List.lookup]
  have hstop2 : stop_battery_notification_monitor_internal id
      (start_battery_notification_monitor_registry id (Except.ok t1) st).1 =
      ({ monitors :=
           ((start_battery_notification_monitor_registry id (Except.ok t1) st).1).monitors.filter
             (fun p => p.1 != id),
         live :=
           ((start_battery_notification_monitor_registry id (Except.ok t1) st).1).live.filter
             (fun t => decide (t ∉ t1.taskIds)) },
        RegistryEvent.stopSignalSent t1.stopChannel ::
          t1.join_handles.map (fun h =>
            if h.finishesInTime then RegistryEvent.handleJoined h.taskId
            else RegistryEvent.handleAborted h.taskId)) := by
    unfold stop_battery_notification_monitor_internal
    rw [hlk]
  refine ⟨?_, ?_, ?_, ?_, ?_⟩
  · show ((id, t2) ::
        (stop_battery_notification_monitor_internal id
          (start_battery_notification_monitor_registry id (Except.ok t1) st).1).1.monitors.filter
          (fun p => p.1 != id)).filter (fun p => p.1 == id) = [(id, t2)]
    simp [List.filter_cons, filter_ne_filter_eq_nil]
  · show List.lookup id ((id, t2) ::
        (stop_battery_notification_monitor_internal id
          (start_battery_notification_monitor_registry id (Except.ok t1) st).1).1.monitors.filter
          (fun p => p.1 != id)) = some t2
    simp [List.lookup]
  · intro a ha hnot
    show a ∉
      (stop_battery_notification_monitor_internal id
        (start_battery_notification_monitor_registry id (Except.ok t1) st).1).1.live ++
        t2.taskIds
    rw [hstop2]
    simp only [List.mem_append, List.mem_filter, not_or]
    refine ⟨fun hmem => ?_, hnot⟩
    have := hmem.2
    simp only [decide_eq_true_eq] at this
    exact this ha
  · intro a ha
    show a ∈
      (stop_battery_notification_monitor_internal id
        (start_battery_notification_monitor_registry id (Except.ok t1) st).1).1.live ++
        t2.taskIds
    simp [ha]
  · show (stop_battery_notification_monitor_internal id
        (start_battery_notification_monitor_registry id (Except.ok t1) st).1).2 ++
        [RegistryEvent.taskInstalled id t2.stopChannel] = _
    rw [hstop2]
    rfl

/-- Witness for C1 at a concrete input: starting twice on "dev" (first
task: handles 11 joining and 12 needing abort; second task: handle 21)
leaves exactly the second task registered, task 11 and 12 no longer live,
21 live, and the second start's trace stops the first monitor fully before
installing the second. -/
theorem c1_registry_one_monitor_per_id_witness :
    (start_battery_notification_monitor_registry "dev" (Except.ok exTask2)
        (start_battery_notification_monitor_registry "dev" (Except.ok exTask1)
          exRegStateEmpty).1).1.monitors.filter (fun p => p.1 == "dev") =
      [("dev", exTask2)] ∧
    (11 : Nat) ∉
      (start_battery_notification_monitor_registry "dev" (Except.ok exTask2)
        (start_battery_notification_monitor_registry "dev" (Except.ok exTask1)
          exRegStateEmpty).1).1.live ∧
    (21 : Nat) ∈
      (start_battery_notification_monitor_registry "dev" (Except.ok exTask2)
        (start_battery_notification_monitor_registry "dev" (Except.ok exTask1)
          exRegStateEmpty).1).1.live ∧
    (start_battery_notification_monitor_registry "dev" (Except.ok exTask2)
        (start_battery_notification_monitor_registry "dev" (Except.ok exTask1)
          exRegStateEmpty).1).2.1 =
      [RegistryEvent.stopSignalSent 1, RegistryEvent.handleJoined 11,
       RegistryEvent.handleAborted 12, RegistryEvent.taskInstalled "dev" 2] := by
  have h := c1_registry_one_monitor_per_id exRegStateEmpty
    (start_battery_notification_monitor_registry "dev" (Except.ok exTask1)
      exRegStateEmpty).1 "dev" exTask1 exTask2
    (start_battery_notification_monitor_registry "dev" (Except.ok exTask2)
      (start_battery_notification_monitor_registry "dev" (Except.ok exTask1)
        exRegStateEmpty).1) rfl rfl
  refine ⟨h.1, ?_, ?_, ?_⟩
  · exact h.2.2.1 11 (by decide) (by decide)
  · exact h.2.2.2.1 21 (by decide)
  · rw [h.2.2.2.2]
    rfl

/-- C9: the stop_battery_notification_monitor command always returns
success. If a MonitorTask exists for the id it is removed from the
registry, the stop signal is broadcast and every owned handle is waited on
bounded by the grace timeout — a handle still running after the timeout is
forcibly aborted — and none of this surfaces as an error; if no MonitorTask
exists, the call is an idempotent no-op. -/
theorem c9_stop_monitor_total (id : String) (st : RegState) (task : MonitorTask) :
    (stop_battery_notification_monitor id st).2.2 = Except.ok () ∧
    (st.monitors.lookup id = none →
      stop_battery_notification_monitor id st = (st, [], Except.ok ())) ∧
    (st.monitors.lookup id = some task →
      (stop_battery_notification_monitor id st).1.monitors =
        st.monitors.filter (fun p => p.1 != id) ∧
      (stop_battery_notification_monitor id st).1.monitors.lookup id = none ∧
      (stop_battery_notification_monitor id st).2.1 =
        RegistryEvent.stopSignalSent task.stopChannel ::
          task.join_handles.map (fun h =>
            if h.finishesInTime then RegistryEvent.handleJoined h.taskId
            else RegistryEvent.handleAborted h.taskId)) := by
  refine ⟨rfl, ?_, ?_⟩
  · intro h
    unfold stop_battery_notification_monitor stop_battery_notification_monitor_internal
    rw [h]
  · intro h
    have hstop : stop_battery_notification_monitor_internal id st =
        ({ monitors := st.monitors.filter (fun p => p.1 != id),
           live := st.live.filter (fun t => decide (t ∉ task.taskIds)) },
          RegistryEvent.stopSignalSent task.stopChannel ::
            task.join_handles.map (fun h =>
              if h.finishesInTime then RegistryEvent.handleJoined h.taskId
              else RegistryEvent.handleAborted h.taskId)) := by
      unfold stop_battery_notification_monitor_internal
      rw [h]
    refine ⟨?_, ?_, ?_⟩
    · show (stop_battery_notification_monitor_internal id st).1.monitors = _
      rw [hstop]
    · show ((stop_battery_notification_monitor_internal id st).1).monitors.lookup id = none
      rw [hstop]
      exact lookup_filter_key_ne id st.monitors
    · show (stop_battery_notification_monitor_internal id st).2 = _
      rw [hstop]

/-- Witness for C9 at concrete inputs: stopping "dev" on a registry holding
it succeeds, removes the entry, signals, joins handle 11 and aborts handle
12; stopping an absent id "other" is a successful no-op. -/
theorem c9_stop_monitor_total_witness :
    (stop_battery_notification_monitor "dev" exRegStateOne).2.2 = Except.ok () ∧
    (stop_battery_notification_monitor "dev" exRegStateOne).1.monitors.lookup "dev" =
      none ∧
    (stop_battery_notification_monitor "dev" exRegStateOne).2.1 =
      [RegistryEvent.stopSignalSent 1, RegistryEvent.handleJoined 11,
       RegistryEvent.handleAborted 12] ∧
    stop_battery_notification_monitor "other" exRegStateOne =
      (exRegStateOne, [], Except.ok ()) := by
  have h := c9_stop_monitor_total "dev" exRegStateOne exTask1
  have habs := (c9_stop_monitor_total "other" exRegStateOne exTask1).2.1 (by rfl)
  have hsome := h.2.2 (by rfl)
  refine ⟨h.1, hsome.2.1, ?_, habs⟩
  rw [hsome.2.2]
  rfl

end ZmkBle

